import Mathlib

/-!
# Formal model of the URL risk decision pipeline

A shallow embedding of the runtime prediction pipeline of the phishing-URL
classifier repository.  The Python modules modelled here are:

* `preChecks.py` — `QuickPreChecker`: URL normalisation, format validation,
  whitelist/blacklist checks, quick heuristics and the pre-check risk score;
* `predict_advanced.py` — `predict` and `predict_batch`: decision fusion of
  database checks, the legacy whitelist, structural suspicion flags and the
  classifier output;
* `database_checker.py` — `check_live_phishing_apis` and
  `check_phishing_databases`;
* `featureExtractor.py` — `PhishingFeatureExtractor.validate_features`;
* `extractorFunctions.py` — `BlacklistChecker.check`.

Modelling conventions:

* Python strings are `List Char`; the modelled character set is ASCII (the
  repository's own domain lists and regexes are ASCII), where `str.lower`
  agrees with `Char.toLower`.
* Python floats are modelled as rationals (`ℚ`).  All numeric constants of
  the code are decimal literals, and every comparison in the modelled code
  happens far from any rounding boundary of binary floating point, so the
  rational model decides every branch exactly as the float one does.
* External effects (the pickled model artifacts, the vectorizer, live HTTP
  lookups, DNS) are uninterpreted oracle fields of explicit environment
  structures; a `Bool`/`Option` field records whether the call succeeds and
  what it returns.
* Python exceptions are explicit: a function that can raise is given a
  result constructor for the raising case, and the `try/except` blocks of
  the source are mirrored as matches over that constructor.
* `urllib.parse.urlparse` is modelled for the URLs the code actually
  produces (after the code prefixes `http://` when no scheme is present):
  the netloc is the maximal run after the `//` not containing `/`, `?` or
  `#`.  `parsed.port` follows CPython: the text after the first `:` of the
  part after the last `@`; empty text is no port, non-digit text or a value
  above 65535 raises `ValueError`.  Bracketed (IPv6) netlocs and exotic
  `int()` spellings (underscores, leading `+`, surrounding whitespace) are
  outside the modelled domain; no theorem below touches them.
-/

/-- Characters of a string literal, used to state Python string values. -/
def lit (s : String) : List Char := s.data

/-- Python `str.lower` (ASCII). -/
def lowerStr (s : List Char) : List Char := s.map Char.toLower

/-- Python `sub in s` (substring containment). -/
def strIn (sub : List Char) : List Char → Bool
  | [] => sub.isEmpty
  | c :: rest => sub.isPrefixOf (c :: rest) || strIn sub rest

/-- Python `s.startswith(p)`. -/
def startsWith (p s : List Char) : Bool := p.isPrefixOf s

/-- Python `s.endswith(p)`. -/
def endsWith (p s : List Char) : Bool := p.reverse.isPrefixOf s.reverse

/-- Python `min(a, b)` on two numbers. -/
def pymin (a b : ℚ) : ℚ := if a ≤ b then a else b

/-- Python `max(a, b)` on two numbers. -/
def pymax (a b : ℚ) : ℚ := if b ≤ a then a else b

/-- Python `s.replace('www.', '')`: delete every non-overlapping occurrence
of `www.`, scanning left to right. -/
def replaceWWW : List Char → List Char
  | [] => []
  | 'w' :: 'w' :: 'w' :: '.' :: rest => replaceWWW rest
  | c :: rest => c :: replaceWWW rest

/-- Python `s.replace('&amp;', '&')` from `predict` (HTML-entity fixup). -/
def replaceAmp : List Char → List Char
  | [] => []
  | '&' :: 'a' :: 'm' :: 'p' :: ';' :: rest => '&' :: replaceAmp rest
  | c :: rest => c :: replaceAmp rest

/-- URL normalisation shared by `quick_check`, `url_to_features` and
`predict`: prefix `http://` unless the string already starts with
`http://` or `https://`. -/
def normalizeUrl (url : List Char) : List Char :=
  if startsWith (lit "http://") url || startsWith (lit "https://") url then url
  else lit "http://" ++ url

/-- `urlparse(u).netloc` for a URL that starts with `http://` or
`https://`: the characters between the `//` and the first `/`, `?` or `#`. -/
def netlocOf (u : List Char) : List Char :=
  let rest := if startsWith (lit "https://") u then u.drop 8 else u.drop 7
  rest.takeWhile (fun c => !(c == '/' || c == '?' || c == '#'))

/-- Outcome of CPython's `parsed.port`: absent, a valid integer port, or a
`ValueError` (`err`) for non-digit text or an out-of-range value. -/
inductive PortResult where
  | noPort : PortResult
  | port (n : Nat) : PortResult
  | err : PortResult
deriving DecidableEq

/-- The part of the netloc after the last `@` (CPython `rpartition('@')`). -/
def afterLastAt : List Char → List Char
  | [] => []
  | c :: rest =>
    if rest.contains '@' then afterLastAt rest
    else if c == '@' then rest
    else c :: rest

/-- The text after the first `:`, if any (CPython `partition(':')`). -/
def portText : List Char → Option (List Char)
  | [] => none
  | c :: rest => if c = ':' then some rest else portText rest

/-- Python `int(s, 10)` on a string of digits. -/
def digitsToNat (s : List Char) : Nat :=
  s.foldl (fun a c => a * 10 + (c.toNat - 48)) 0

/-- CPython `parsed.port` on a (non-bracketed) netloc. -/
def portOf (netloc : List Char) : PortResult :=
  match portText (afterLastAt netloc) with
  | none => .noPort
  | some [] => .noPort
  | some p =>
    if p.all Char.isDigit then
      let n := digitsToNat p
      if n ≤ 65535 then .port n else .err
    else .err

-- sanity checks on the URL plumbing
example : netlocOf (normalizeUrl (lit "www.google.com")) = lit "www.google.com" := by decide
example : netlocOf (normalizeUrl (lit "https://a.b/c?d")) = lit "a.b" := by decide
example : portOf (lit "a:b.google.com") = .err := by decide
example : portOf (lit "x.com:8080") = .port 8080 := by decide
example : portOf (lit "x.com:") = .noPort := by decide
example : portOf (lit "u:p@x.com") = .noPort := by decide
example : replaceWWW (lit "www.google.com") = lit "google.com" := by decide

/-! ## `preChecks.py` — `QuickPreChecker` -/

namespace QuickPreChecker

/-- Word character of Python's `re` (`[A-Za-z0-9_]`), for `\b`. -/
def isWordChar (c : Char) : Bool := c.isAlphanum || c == '_'

/-- Does `(?:[0-9]{1,3}\.){3}[0-9]{1,3}\b` match a prefix of `s`?
The repetition counts are existential, which is what backtracking decides. -/
def ipMatchHere (s : List Char) : Bool :=
  let seg : List Char → (List Char → Bool) → Bool := fun t k =>
    [1, 2, 3].any fun n =>
      (t.take n).length == n && (t.take n).all Char.isDigit &&
      match t.drop n with
      | '.' :: rest => k rest
      | _ => false
  let last : List Char → Bool := fun t =>
    [1, 2, 3].any fun n =>
      (t.take n).length == n && (t.take n).all Char.isDigit &&
      match t.drop n with
      | [] => true
      | c :: _ => !isWordChar c
  seg s fun r1 => seg r1 fun r2 => seg r2 last

/-- `self.ip_pattern.search(netloc)` with the leading `\b`: some position
after a non-word character (or the start) begins an IP-looking match. -/
def ipSearchAux (prev : Option Char) : List Char → Bool
  | [] => false
  | c :: rest =>
    ((match prev with
      | none => true
      | some p => !isWordChar p) && ipMatchHere (c :: rest)) ||
    ipSearchAux (some c) rest

def ipSearch (s : List Char) : Bool := ipSearchAux none s

example : ipSearch (lit "192.168.1.1") = true := by decide
example : ipSearch (lit "a1234.5.6.7b") = false := by decide
example : ipSearch (lit "x.10.20.30.40/") = true := by decide
example : ipSearch (lit "google.com") = false := by decide

/-- The alternatives of `(login|verify|secure|update|account|suspended)`,
in the order the regex tries them. -/
def suspiciousKeywords : List (List Char) :=
  [lit "login", lit "verify", lit "secure", lit "update", lit "account",
   lit "suspended"]

/-- One step of `re.findall` with `re.IGNORECASE`: the first alternative
matching at the head of `s`, returned in original case with the rest. -/
def kwTryHere (s : List Char) : Option (List Char × List Char) :=
  suspiciousKeywords.foldr
    (fun kw acc =>
      if lowerStr (s.take kw.length) == kw && (s.take kw.length).length == kw.length
      then some (s.take kw.length, s.drop kw.length)
      else acc)
    none

/-- `self.suspicious_pattern.findall(url)`: left-to-right, non-overlapping
matches, each reported in its original case.  `fuel` bounds the scan by the
length of the remaining input. -/
def kwFindall : Nat → List Char → List (List Char)
  | 0, _ => []
  | _, [] => []
  | fuel + 1, s =>
    match kwTryHere s with
    | some (m, rest) => m :: kwFindall fuel rest
    | none => kwFindall fuel s.tail

/-- `len(set(self.suspicious_pattern.findall(url)))`. -/
def distinctKeywordCount (url : List Char) : Nat :=
  ((kwFindall url.length url).eraseDups).length

example : distinctKeywordCount (lit "http://x/login-Login-login") = 2 := by decide
example : distinctKeywordCount (lit "http://secureupdate.verify") = 3 := by decide

/-- A typosquatting regex as a sequence of allowed-character classes. -/
def classesMatchHere : List (List Char) → List Char → Bool
  | [], _ => true
  | _ :: _, [] => false
  | cls :: ps, c :: cs => cls.contains c && classesMatchHere ps cs

def classesSearch (pat : List (List Char)) : List Char → Bool
  | [] => classesMatchHere pat []
  | c :: rest => classesMatchHere pat (c :: rest) || classesSearch pat rest

/-- The four `typo_patterns` of `_check_typosquatting`, literally:
`g[o0]{2}gle`, `fac[e3]b[o0]{2}k`, `amaz[o0]n`, `micr[o0]s[o0]ft`. -/
def typoPatterns : List (List (List Char)) :=
  let o0 : List Char := ['o', '0']
  [ [['g'], o0, o0, ['g'], ['l'], ['e']],
    [['f'], ['a'], ['c'], ['e', '3'], ['b'], o0, o0, ['k']],
    [['a'], ['m'], ['a'], ['z'], o0, ['n']],
    [['m'], ['i'], ['c'], ['r'], o0, ['s'], o0, ['f'], ['t']] ]

def check_typosquatting (domain : List Char) : Bool :=
  typoPatterns.any fun pat => classesSearch pat (lowerStr domain)

example : check_typosquatting (lit "g00gle-login.com") = true := by decide
-- `g[o0]{2}gle` also matches the correct spelling, as in the source
example : check_typosquatting (lit "google.com") = true := by decide
example : check_typosquatting (lit "example.com") = false := by decide

/-- `self.known_malicious` of `QuickPreChecker.__init__`. -/
def known_malicious : List (List Char) :=
  [lit "phishing-site.tk", lit "fake-paypal.ml", lit "scam-bank.ga",
   lit "malware-download.cf", lit "suspicious-login.xyz"]

/-- `self.known_legitimate` of `QuickPreChecker.__init__`. -/
def known_legitimate : List (List Char) :=
  [lit "google.com", lit "facebook.com", lit "amazon.com", lit "microsoft.com",
   lit "apple.com", lit "paypal.com", lit "github.com", lit "stackoverflow.com",
   lit "linkedin.com", lit "twitter.com", lit "instagram.com", lit "youtube.com",
   lit "netflix.com", lit "spotify.com", lit "reddit.com", lit "wikipedia.org"]

/-- `self.suspicious_tlds`. -/
def suspicious_tlds : List (List Char) :=
  [lit ".tk", lit ".ml", lit ".ga", lit ".cf", lit ".xyz", lit ".top", lit ".click"]

/-- `self.url_shorteners`. -/
def url_shorteners : List (List Char) :=
  [lit "bit.ly", lit "tinyurl.com", lit "t.co", lit "goo.gl", lit "ow.ly",
   lit "short.link", lit "tiny.cc", lit "is.gd", lit "buff.ly"]

/-- `_check_whitelist`: exact match of the domain with `www.` occurrences
removed, or suffix match `.<legit>`. -/
def check_whitelist (domain : List Char) : Bool :=
  let clean := replaceWWW domain
  known_legitimate.contains clean ||
    known_legitimate.any fun legit => endsWith ('.' :: legit) clean

/-- `_check_blacklist`: exact membership of the cleaned domain. -/
def check_blacklist (domain : List Char) : Bool :=
  known_malicious.contains (replaceWWW domain)

/-- `_check_url_format` as a boolean (`has_format_issues`): the issue list
is nonempty iff one of the five structural checks fires.  The port check
mirrors `if parsed.port and parsed.port not in [80, 443]` (so port 0 is
falsy and raises no issue); a `PortResult.err` never reaches this function
because accessing `parsed.port` raises first. -/
def has_format_issues (url netloc : List Char) (pr : PortResult) : Bool :=
  ipSearch netloc || netloc.contains '@' || netloc.contains '#' ||
  url.length > 200 || netloc.count '.' > 4 ||
  (match pr with
   | .port n => decide (n ≠ 0) && !(n == 80 || n == 443)
   | _ => false)

/-- `_check_brand_abuse`: the first brand appearing in the domain that is
neither the canonical `<brand>.com` / `www.<brand>.com` nor one of its
subdomains. -/
def check_brand_abuse (domain : List Char) : Option (List Char) :=
  let brands := [lit "paypal", lit "amazon", lit "apple", lit "microsoft",
                 lit "google", lit "facebook"]
  brands.foldr
    (fun brand acc =>
      let d := lowerStr domain
      if strIn brand d &&
         !(d == brand ++ lit ".com" || d == lit "www." ++ brand ++ lit ".com") &&
         !endsWith ('.' :: (brand ++ lit ".com")) d
      then some brand
      else acc)
    none

/-- `_quick_heuristics`: the accumulated `risk_factors` score.  Reason
strings are appended exactly when the corresponding factor fires, so only
the numeric total is carried. -/
def risk_factors_of (url domain : List Char) : Nat :=
  let lowUrl := lowerStr url
  (if suspicious_tlds.any (fun tld => strIn tld lowUrl) then 2 else 0) +
  (if url_shorteners.any (fun sh => strIn sh domain) then 1 else 0) +
  distinctKeywordCount url +
  (if (check_brand_abuse domain).isSome then 3 else 0) +
  (if check_typosquatting domain then 2 else 0) +
  (if !startsWith (lit "https://") url &&
      [lit "login", lit "account", lit "secure"].any (fun w => strIn w lowUrl)
   then 1 else 0)

/-- `_calculate_risk_score`: format-issue penalty plus the capped heuristic
contribution, clamped to `[0, 1]`. -/
def calculate_risk_score (fmt : Bool) (rf : Nat) : ℚ :=
  let score : ℚ := (if fmt then 3/10 else 0) + pymin ((rf : ℚ) * (15/100)) (6/10)
  pymin (pymax score 0) 1

/-- `quick_decision` values. -/
inductive Decision where
  | legitimate | suspicious | malicious
deriving DecidableEq

/-- The fields of the result dictionary of `quick_check` that the verified
claims read, for the non-raising path. -/
structure QCOk where
  quick_decision : Option Decision
  confidence : ℚ
  should_skip_ml : Bool
  risk_score : ℚ
  hasFormat : Bool
  riskFactors : Nat
deriving DecidableEq

/-- Result of `quick_check`: the normal dictionary, or the fallback
dictionary built by the `except` handler (`quick_decision = None`,
`confidence = 0.0`, `should_skip_ml = False`, `risk_score = 0.5`). -/
inductive QCResult where
  | ok (r : QCOk)
  | failed
deriving DecidableEq

def QCResult.quick_decision : QCResult → Option Decision
  | .ok r => r.quick_decision
  | .failed => none

def QCResult.confidence : QCResult → ℚ
  | .ok r => r.confidence
  | .failed => 0

def QCResult.should_skip_ml : QCResult → Bool
  | .ok r => r.should_skip_ml
  | .failed => false

def QCResult.risk_score : QCResult → ℚ
  | .ok r => r.risk_score
  | .failed => 1/2

def QCResult.hasFormat : QCResult → Bool
  | .ok r => r.hasFormat
  | .failed => false

def QCResult.riskFactors : QCResult → Nat
  | .ok r => r.riskFactors
  | .failed => 0

/-- `QuickPreChecker.quick_check`.  The format validation runs before the
whitelist check, so a `ValueError` from `parsed.port` reaches the `except`
handler regardless of any later match. -/
def quick_check (url : List Char) : QCResult :=
  let u := normalizeUrl url
  let netloc := netlocOf u
  let domain := lowerStr netloc
  match portOf netloc with
  | .err => .failed
  | pr =>
    let fmt := has_format_issues u netloc pr
    if check_whitelist domain then
      .ok ⟨some .legitimate, 95/100, true, 1/10, fmt, 0⟩
    else if check_blacklist domain then
      .ok ⟨some .malicious, 98/100, true, 95/100, fmt, 0⟩
    else
      let rf := risk_factors_of u domain
      let risk := calculate_risk_score fmt rf
      if risk > 8/10 then .ok ⟨some .suspicious, 7/10, false, risk, fmt, rf⟩
      else if risk < 2/10 then .ok ⟨some .legitimate, 6/10, false, risk, fmt, rf⟩
      else .ok ⟨none, 0, false, risk, fmt, rf⟩

example : (quick_check (lit "https://www.google.com")).quick_decision = some .legitimate := by decide
example : (quick_check (lit "https://fake-paypal.ml")).quick_decision = some .malicious := by decide
example : (quick_check (lit "http://a:b.google.com/")).quick_decision = none := by decide
example : quick_check (lit "http://a:b.google.com/") = .failed := by decide

example : (quick_check (lit "http://example.com")).quick_decision = some .legitimate := by
  have hp : portOf (netlocOf (normalizeUrl (lit "http://example.com"))) = .noPort := by decide
  have hw : check_whitelist (lowerStr (netlocOf (normalizeUrl (lit "http://example.com")))) = false := by decide
  have hb : check_blacklist (lowerStr (netlocOf (normalizeUrl (lit "http://example.com")))) = false := by decide
  have hf : has_format_issues (normalizeUrl (lit "http://example.com"))
      (netlocOf (normalizeUrl (lit "http://example.com"))) .noPort = false := by decide
  have hr : risk_factors_of (normalizeUrl (lit "http://example.com"))
      (lowerStr (netlocOf (normalizeUrl (lit "http://example.com")))) = 0 := by decide
  simp only [quick_check, hp, hw, hb, hf, hr]
  norm_num [calculate_risk_score, pymin, pymax, QCResult.quick_decision]

end QuickPreChecker

/-! ### Supporting lemmas for the pre-checker -/

lemma mem_replaceWWW {c : Char} (hw : c ≠ 'w') (hd : c ≠ '.') :
    ∀ s : List Char, c ∈ s → c ∈ replaceWWW s := by
  intro s
  induction s using replaceWWW.induct with
  | case1 => intro h; cases h
  | case2 rest ih =>
      intro h
      have h' : c ∈ rest := by simpa [List.mem_cons, hw, hd] using h
      simpa [replaceWWW] using ih h'
  | case3 x rest hne ih =>
      intro h
      have heq : replaceWWW (x :: rest) = x :: replaceWWW rest := by
        rw [replaceWWW.eq_def]
        split <;> simp_all
      rw [heq]
      rcases List.mem_cons.mp h with rfl | h'
      · exact List.mem_cons_self _ _
      · exact List.mem_cons_of_mem _ (ih h')

lemma mem_afterLastAt {x : Char} : ∀ s : List Char, x ∈ afterLastAt s → x ∈ s := by
  intro s
  induction s with
  | nil => simp [afterLastAt]
  | cons c rest ih =>
      simp only [afterLastAt]
      split
      · exact fun h => List.mem_cons_of_mem _ (ih h)
      · split
        · exact fun h => List.mem_cons_of_mem _ h
        · exact id

lemma portText_colon : ∀ (t : List Char) (r : List Char),
    portText t = some r → ':' ∈ t := by
  intro t
  induction t with
  | nil => intro r h; simp [portText] at h
  | cons c rest ih =>
      intro r h
      by_cases hc : c = ':'
      · subst hc; exact List.mem_cons_self _ _
      · simp only [portText, if_neg hc] at h
        exact List.mem_cons_of_mem _ (ih r h)

lemma portOf_err_colon {n : List Char} (h : portOf n = .err) : ':' ∈ n := by
  rcases hpt : portText (afterLastAt n) with _ | p
  · rw [portOf, hpt] at h; cases h
  · exact mem_afterLastAt _ (portText_colon _ _ hpt)

lemma colon_mem_lowerStr {s : List Char} (h : ':' ∈ s) : ':' ∈ lowerStr s := by
  have h2 := List.mem_map_of_mem Char.toLower h
  have h3 : Char.toLower ':' = ':' := by decide
  rw [h3] at h2
  exact h2

namespace QuickPreChecker

/-- A domain whose `www.`-cleaned form is one of the five blacklist entries
contains no `:` (none of the entries does, and `replaceWWW` only deletes
characters of `www.`). -/
lemma blacklist_no_colon {d : List Char} (hb : check_blacklist d = true) :
    ':' ∉ d := by
  intro hcol
  have h1 : ':' ∈ replaceWWW d := mem_replaceWWW (by decide) (by decide) d hcol
  have hmem : replaceWWW d ∈ known_malicious := List.mem_of_elem_eq_true hb
  simp only [known_malicious, List.mem_cons, List.not_mem_nil, or_false] at hmem
  rcases hmem with h | h | h | h | h <;> rw [h] at h1 <;> exact absurd h1 (by decide)

/-- A blacklist match implies `parsed.port` does not raise. -/
lemma blacklist_port_ok {url : List Char}
    (hb : check_blacklist (lowerStr (netlocOf (normalizeUrl url))) = true) :
    portOf (netlocOf (normalizeUrl url)) ≠ .err := by
  intro herr
  exact blacklist_no_colon hb (colon_mem_lowerStr (portOf_err_colon herr))

end QuickPreChecker

namespace QuickPreChecker

lemma pymin_le_left (a b : ℚ) : pymin a b ≤ a := by
  unfold pymin; split <;> linarith

lemma pymin_le_right (a b : ℚ) : pymin a b ≤ b := by
  unfold pymin; split <;> linarith

/-- The clamped risk score never exceeds `0.9`. -/
lemma calculate_risk_score_le (fmt : Bool) (rf : Nat) :
    calculate_risk_score fmt rf ≤ 9/10 := by
  have ha0 : (0:ℚ) ≤ (rf : ℚ) * (15/100) := by positivity
  simp only [calculate_risk_score, pymin, pymax]
  split_ifs <;> linarith

/-- A clamped risk score above `0.8` forces a format issue and at least
four heuristic risk points. -/
lemma calculate_risk_score_gt (fmt : Bool) (rf : Nat)
    (h : 8/10 < calculate_risk_score fmt rf) : fmt = true ∧ 4 ≤ rf := by
  have ha0 : (0:ℚ) ≤ (rf : ℚ) * (15/100) := by positivity
  by_cases h4 : 4 ≤ rf
  · refine ⟨?_, h4⟩
    by_contra hf
    have hfmt : fmt = false := by simpa using hf
    subst hfmt
    simp only [calculate_risk_score, pymin, pymax, Bool.false_eq_true,
      if_false] at h
    split_ifs at h <;> linarith
  · exfalso
    push_neg at h4
    have hr3 : (rf : ℚ) ≤ 3 := by exact_mod_cast Nat.lt_succ_iff.mp h4
    have haux : (rf : ℚ) * (15/100) ≤ 45/100 := by nlinarith
    simp only [calculate_risk_score, pymin, pymax] at h
    split_ifs at h <;> linarith

end QuickPreChecker

open QuickPreChecker in
/-- C1 (amended): whenever the format validation does not raise
(`parsed.port` is well formed) and the `www.`-cleaned domain matches the
static whitelist exactly or as a subdomain, `quick_check` decides
`legitimate` with confidence at least 0.95 and skips the classifier —
independently of every heuristic signal of the URL. -/
theorem whitelist_short_circuit (url : List Char)
    (hp : portOf (netlocOf (normalizeUrl url)) ≠ .err)
    (hw : check_whitelist (lowerStr (netlocOf (normalizeUrl url))) = true) :
    (quick_check url).quick_decision = some .legitimate ∧
    95/100 ≤ (quick_check url).confidence ∧
    (quick_check url).should_skip_ml = true := by
  rcases hpr : portOf (netlocOf (normalizeUrl url)) with _ | n | _
  · simp only [quick_check, hpr, hw, if_true]
    norm_num [QCResult.quick_decision, QCResult.confidence, QCResult.should_skip_ml]
  · simp only [quick_check, hpr, hw, if_true]
    norm_num [QCResult.quick_decision, QCResult.confidence, QCResult.should_skip_ml]
  · exact absurd hpr hp

open QuickPreChecker in
/-- C1 counterexample: the URL `http://a:b.google.com/` has a cleaned
domain that the code's own whitelist test accepts as a subdomain of
`google.com`, yet `quick_check` returns the exception-fallback dictionary
(`quick_decision = None`, `should_skip_ml = False`) because the format
validation accesses `parsed.port`, which raises `ValueError` on the text
`b.google.com`, before the whitelist is ever consulted. -/
theorem whitelist_short_circuit_cex :
    check_whitelist
      (lowerStr (netlocOf (normalizeUrl (lit "http://a:b.google.com/")))) = true ∧
    quick_check (lit "http://a:b.google.com/") = .failed ∧
    (quick_check (lit "http://a:b.google.com/")).quick_decision ≠
      some Decision.legitimate ∧
    (quick_check (lit "http://a:b.google.com/")).should_skip_ml = false := by
  refine ⟨by decide, by decide, by decide, by decide⟩

open QuickPreChecker in
/-- C1 witness: the whitelist theorem applied to `https://www.google.com`. -/
theorem whitelist_short_circuit_witness :
    (quick_check (lit "https://www.google.com")).quick_decision =
      some Decision.legitimate ∧
    95/100 ≤ (quick_check (lit "https://www.google.com")).confidence ∧
    (quick_check (lit "https://www.google.com")).should_skip_ml = true :=
  whitelist_short_circuit (lit "https://www.google.com") (by decide) (by decide)

open QuickPreChecker in
/-- C4: a URL whose cleaned domain is in the static blacklist and does not
match the whitelist is decided `malicious` with confidence at least 0.95
(the code uses 0.98) and skips the classifier.  No port proviso is needed:
no blacklist entry contains `:`, so `parsed.port` cannot raise. -/
theorem blacklist_short_circuit (url : List Char)
    (hw : check_whitelist (lowerStr (netlocOf (normalizeUrl url))) = false)
    (hb : check_blacklist (lowerStr (netlocOf (normalizeUrl url))) = true) :
    (quick_check url).quick_decision = some .malicious ∧
    95/100 ≤ (quick_check url).confidence ∧
    (quick_check url).should_skip_ml = true := by
  rcases hpr : portOf (netlocOf (normalizeUrl url)) with _ | n | _
  · simp only [quick_check, hpr, hw, hb, if_true, Bool.false_eq_true, if_false]
    norm_num [QCResult.quick_decision, QCResult.confidence, QCResult.should_skip_ml]
  · simp only [quick_check, hpr, hw, hb, if_true, Bool.false_eq_true, if_false]
    norm_num [QCResult.quick_decision, QCResult.confidence, QCResult.should_skip_ml]
  · exact absurd hpr (blacklist_port_ok hb)

open QuickPreChecker in
/-- C4 witness: the blacklist theorem applied to `https://fake-paypal.ml`. -/
theorem blacklist_short_circuit_witness :
    (quick_check (lit "https://fake-paypal.ml")).quick_decision =
      some Decision.malicious ∧
    95/100 ≤ (quick_check (lit "https://fake-paypal.ml")).confidence ∧
    (quick_check (lit "https://fake-paypal.ml")).should_skip_ml = true :=
  blacklist_short_circuit (lit "https://fake-paypal.ml") (by decide) (by decide)

open QuickPreChecker in
/-- C5 (amended): on the inconclusive path (no whitelist or blacklist
match) and provided format validation does not raise, the risk score is
exactly `min(risk_factors*0.15, 0.6)` plus `0.3` for a format issue,
clamped to `[0,1]`, and the decision is `suspicious` (confidence 0.7) for
risk above 0.8, `legitimate` (confidence 0.6) for risk below 0.2, and
`None` (confidence 0.0) otherwise. -/
theorem heuristic_risk_path (url : List Char)
    (hp : portOf (netlocOf (normalizeUrl url)) ≠ .err)
    (hw : check_whitelist (lowerStr (netlocOf (normalizeUrl url))) = false)
    (hb : check_blacklist (lowerStr (netlocOf (normalizeUrl url))) = false) :
    (quick_check url).risk_score =
      calculate_risk_score
        (has_format_issues (normalizeUrl url) (netlocOf (normalizeUrl url))
          (portOf (netlocOf (normalizeUrl url))))
        (risk_factors_of (normalizeUrl url)
          (lowerStr (netlocOf (normalizeUrl url)))) ∧
    (quick_check url).quick_decision =
      (if calculate_risk_score
            (has_format_issues (normalizeUrl url) (netlocOf (normalizeUrl url))
              (portOf (netlocOf (normalizeUrl url))))
            (risk_factors_of (normalizeUrl url)
              (lowerStr (netlocOf (normalizeUrl url)))) > 8/10
       then some Decision.suspicious
       else if calculate_risk_score
            (has_format_issues (normalizeUrl url) (netlocOf (normalizeUrl url))
              (portOf (netlocOf (normalizeUrl url))))
            (risk_factors_of (normalizeUrl url)
              (lowerStr (netlocOf (normalizeUrl url)))) < 2/10
       then some Decision.legitimate else none) ∧
    (quick_check url).confidence =
      (if calculate_risk_score
            (has_format_issues (normalizeUrl url) (netlocOf (normalizeUrl url))
              (portOf (netlocOf (normalizeUrl url))))
            (risk_factors_of (normalizeUrl url)
              (lowerStr (netlocOf (normalizeUrl url)))) > 8/10
       then 7/10
       else if calculate_risk_score
            (has_format_issues (normalizeUrl url) (netlocOf (normalizeUrl url))
              (portOf (netlocOf (normalizeUrl url))))
            (risk_factors_of (normalizeUrl url)
              (lowerStr (netlocOf (normalizeUrl url)))) < 2/10
       then 6/10 else 0) := by
  rcases hpr : portOf (netlocOf (normalizeUrl url)) with _ | n | _
  · simp only [quick_check, hpr, hw, hb, Bool.false_eq_true, if_false]
    split_ifs <;>
      simp [QCResult.risk_score, QCResult.quick_decision, QCResult.confidence]
  · simp only [quick_check, hpr, hw, hb, Bool.false_eq_true, if_false]
    split_ifs <;>
      simp [QCResult.risk_score, QCResult.quick_decision, QCResult.confidence]
  · exact absurd hpr hp

open QuickPreChecker in
/-- C5 counterexample: `http://a:bc/login` matches neither list and has
two heuristic risk points, but `quick_check` returns the exception
fallback with `risk_score = 0.5` and no decision, which matches the
claimed formula under neither reading of the format-issue penalty
(`0.6` with the penalty, `0.3` without). -/
theorem heuristic_risk_path_cex :
    check_whitelist
      (lowerStr (netlocOf (normalizeUrl (lit "http://a:bc/login")))) = false ∧
    check_blacklist
      (lowerStr (netlocOf (normalizeUrl (lit "http://a:bc/login")))) = false ∧
    risk_factors_of (normalizeUrl (lit "http://a:bc/login"))
      (lowerStr (netlocOf (normalizeUrl (lit "http://a:bc/login")))) = 2 ∧
    (quick_check (lit "http://a:bc/login")).risk_score = 1/2 ∧
    (quick_check (lit "http://a:bc/login")).quick_decision = none ∧
    calculate_risk_score true 2 ≠ 1/2 ∧
    calculate_risk_score false 2 ≠ 1/2 := by
  refine ⟨by decide, by decide, by decide, ?_, by decide, ?_, ?_⟩
  · rw [show quick_check (lit "http://a:bc/login") = QCResult.failed from by decide]
    simp [QCResult.risk_score]
  · norm_num [calculate_risk_score, pymin, pymax]
  · norm_num [calculate_risk_score, pymin, pymax]

open QuickPreChecker in
/-- C5 witness: the risk-path theorem applied to `http://example.com`
(no format issues, no risk factors, risk 0, decision `legitimate`). -/
theorem heuristic_risk_path_witness :
    (quick_check (lit "http://example.com")).risk_score =
      calculate_risk_score
        (has_format_issues (normalizeUrl (lit "http://example.com"))
          (netlocOf (normalizeUrl (lit "http://example.com")))
          (portOf (netlocOf (normalizeUrl (lit "http://example.com")))))
        (risk_factors_of (normalizeUrl (lit "http://example.com"))
          (lowerStr (netlocOf (normalizeUrl (lit "http://example.com"))))) ∧
    (quick_check (lit "http://example.com")).quick_decision =
      (if calculate_risk_score
            (has_format_issues (normalizeUrl (lit "http://example.com"))
              (netlocOf (normalizeUrl (lit "http://example.com")))
              (portOf (netlocOf (normalizeUrl (lit "http://example.com")))))
            (risk_factors_of (normalizeUrl (lit "http://example.com"))
              (lowerStr (netlocOf (normalizeUrl (lit "http://example.com"))))) > 8/10
       then some Decision.suspicious
       else if calculate_risk_score
            (has_format_issues (normalizeUrl (lit "http://example.com"))
              (netlocOf (normalizeUrl (lit "http://example.com")))
              (portOf (netlocOf (normalizeUrl (lit "http://example.com")))))
            (risk_factors_of (normalizeUrl (lit "http://example.com"))
              (lowerStr (netlocOf (normalizeUrl (lit "http://example.com"))))) < 2/10
       then some Decision.legitimate else none) ∧
    (quick_check (lit "http://example.com")).confidence =
      (if calculate_risk_score
            (has_format_issues (normalizeUrl (lit "http://example.com"))
              (netlocOf (normalizeUrl (lit "http://example.com")))
              (portOf (netlocOf (normalizeUrl (lit "http://example.com")))))
            (risk_factors_of (normalizeUrl (lit "http://example.com"))
              (lowerStr (netlocOf (normalizeUrl (lit "http://example.com"))))) > 8/10
       then 7/10
       else if calculate_risk_score
            (has_format_issues (normalizeUrl (lit "http://example.com"))
              (netlocOf (normalizeUrl (lit "http://example.com")))
              (portOf (netlocOf (normalizeUrl (lit "http://example.com")))))
            (risk_factors_of (normalizeUrl (lit "http://example.com"))
              (lowerStr (netlocOf (normalizeUrl (lit "http://example.com"))))) < 2/10
       then 6/10 else 0) :=
  heuristic_risk_path (lit "http://example.com") (by decide) (by decide) (by decide)

open QuickPreChecker in
/-- C9: the clamped pre-check risk score never exceeds 0.9 (0.6 heuristic
cap plus 0.3 format penalty), and a `suspicious` decision (risk above 0.8)
can only arise with a format issue present and at least four risk-factor
points. -/
theorem risk_score_cap (url : List Char) :
    (∀ (fmt : Bool) (rf : Nat), calculate_risk_score fmt rf ≤ 9/10) ∧
    ((quick_check url).quick_decision = some Decision.suspicious →
      (quick_check url).hasFormat = true ∧
      4 ≤ (quick_check url).riskFactors) := by
  refine ⟨calculate_risk_score_le, ?_⟩
  intro h
  rcases hpr : portOf (netlocOf (normalizeUrl url)) with _ | n | _
  · simp only [quick_check, hpr] at h ⊢
    cases hw : check_whitelist (lowerStr (netlocOf (normalizeUrl url))) with
    | true => simp [hw, QCResult.quick_decision] at h
    | false =>
      cases hb : check_blacklist (lowerStr (netlocOf (normalizeUrl url))) with
      | true => simp [hw, hb, QCResult.quick_decision] at h
      | false =>
        simp only [hw, hb, Bool.false_eq_true, if_false] at h ⊢
        split_ifs at h ⊢ with h1 h2
        · have := calculate_risk_score_gt _ _ h1
          simpa [QCResult.hasFormat, QCResult.riskFactors] using this
        · simp [QCResult.quick_decision] at h
        · simp [QCResult.quick_decision] at h
  · simp only [quick_check, hpr] at h ⊢
    cases hw : check_whitelist (lowerStr (netlocOf (normalizeUrl url))) with
    | true => simp [hw, QCResult.quick_decision] at h
    | false =>
      cases hb : check_blacklist (lowerStr (netlocOf (normalizeUrl url))) with
      | true => simp [hw, hb, QCResult.quick_decision] at h
      | false =>
        simp only [hw, hb, Bool.false_eq_true, if_false] at h ⊢
        split_ifs at h ⊢ with h1 h2
        · have := calculate_risk_score_gt _ _ h1
          simpa [QCResult.hasFormat, QCResult.riskFactors] using this
        · simp [QCResult.quick_decision] at h
        · simp [QCResult.quick_decision] at h
  · simp only [quick_check, hpr] at h
    simp [QCResult.quick_decision] at h

open QuickPreChecker in
/-- C9 witness: `http://192.168.1.1/login-verify-secure-update` is decided
`suspicious`, and the theorem yields a format issue and at least four risk
points for it. -/
theorem risk_score_cap_witness :
    (quick_check (lit "http://192.168.1.1/login-verify-secure-update")).quick_decision
        = some Decision.suspicious ∧
    (quick_check (lit "http://192.168.1.1/login-verify-secure-update")).hasFormat
        = true ∧
    4 ≤ (quick_check (lit "http://192.168.1.1/login-verify-secure-update")).riskFactors := by
  have hd : (quick_check (lit "http://192.168.1.1/login-verify-secure-update")).quick_decision
      = some Decision.suspicious := by
    have hp : portOf (netlocOf (normalizeUrl
        (lit "http://192.168.1.1/login-verify-secure-update"))) = .noPort := by decide
    have hw : check_whitelist (lowerStr (netlocOf (normalizeUrl
        (lit "http://192.168.1.1/login-verify-secure-update")))) = false := by decide
    have hb : check_blacklist (lowerStr (netlocOf (normalizeUrl
        (lit "http://192.168.1.1/login-verify-secure-update")))) = false := by decide
    have hf : has_format_issues
        (normalizeUrl (lit "http://192.168.1.1/login-verify-secure-update"))
        (netlocOf (normalizeUrl (lit "http://192.168.1.1/login-verify-secure-update")))
        PortResult.noPort = true := by decide
    have hr : risk_factors_of
        (normalizeUrl (lit "http://192.168.1.1/login-verify-secure-update"))
        (lowerStr (netlocOf (normalizeUrl
          (lit "http://192.168.1.1/login-verify-secure-update")))) = 5 := by decide
    simp only [quick_check, hp, hw, hb, hf, hr, Bool.false_eq_true, if_false]
    norm_num [calculate_risk_score, pymin, pymax, QCResult.quick_decision]
  exact ⟨hd, (risk_score_cap (lit "http://192.168.1.1/login-verify-secure-update")).2 hd⟩

/-! ## `database_checker.py` and `predict_advanced.py` -/

namespace PredictAdvanced

/-- Python truthiness of the optional probability (`if proba:`):
`None` and `0.0` are falsy. -/
def pyTruthy (p : Option ℚ) : Bool :=
  match p with
  | some q => decide (q ≠ 0)
  | none => false

/-- Oracle environment for one `predict` call: the pickled artifacts, the
classifier, and every network response the code may consult.  `modelPred`
and `modelProba` are the classifier outputs on the feature vector of the
URL under consideration. -/
structure PredictEnv where
  artifactsOk : Bool
  featuresOk : Bool
  hasProba : Bool
  modelProba : ℚ
  modelPred : Nat
  urlvoidMalicious : Bool
  safeBrowsing200 : Bool
  dnsResolves : Bool

/-- The origin of one entry of a database-check `sources` list. -/
inductive DbSource where
  | urlvoidFlagged
  | safeBrowsingChecked
  | phishtankPattern
  | live (s : DbSource)
  | keywords
  | safeDomain
  | suspiciousTld
  | typosquat (brand : List Char)
deriving DecidableEq

/-- Result dictionary of the database checkers. -/
structure DbResult where
  is_phishing : Bool
  is_safe : Bool
  sources : List DbSource

def phishtank_patterns : List (List Char) :=
  [lit "phish", lit "scam", lit "fake", lit "malware", lit "fraud"]

/-- `database_checker.check_live_phishing_apis`.  The URLVoid HTTP request
is a live network call made regardless of any configuration; its outcome
is the oracle field `urlvoidMalicious` (a 200 response whose body contains
`malicious`).  The Safe-Browsing request only contributes a source line. -/
def check_live_phishing_apis (env : PredictEnv) (domain : List Char) : DbResult :=
  let urlvoid := env.urlvoidMalicious
  let phishtank := phishtank_patterns.any fun p => strIn p (lowerStr domain)
  { is_phishing := urlvoid || phishtank
    is_safe := false
    sources :=
      (if urlvoid then [DbSource.urlvoidFlagged] else []) ++
      (if env.safeBrowsing200 then [DbSource.safeBrowsingChecked] else []) ++
      (if phishtank then [DbSource.phishtankPattern] else []) }

def phishing_keywords : List (List Char) :=
  [lit "phishing", lit "scam", lit "fake", lit "malware", lit "virus",
   lit "hack", lit "steal", lit "fraud"]

def safe_domains : List (List Char) :=
  [lit "google.com", lit "facebook.com", lit "youtube.com", lit "amazon.com",
   lit "wikipedia.org", lit "twitter.com", lit "instagram.com", lit "linkedin.com",
   lit "github.com", lit "stackoverflow.com", lit "microsoft.com", lit "apple.com",
   lit "netflix.com", lit "reddit.com", lit "ebay.com", lit "paypal.com",
   lit "dropbox.com", lit "adobe.com", lit "salesforce.com", lit "zoom.us",
   lit "kaggle.com", lit "medium.com", lit "quora.com", lit "pinterest.com",
   lit "tumblr.com", lit "twitch.tv", lit "discord.com", lit "slack.com",
   lit "notion.so", lit "figma.com", lit "canva.com", lit "trello.com",
   lit "atlassian.com", lit "bitbucket.org", lit "gitlab.com"]

def db_suspicious_tlds : List (List Char) :=
  [lit ".tk", lit ".ml", lit ".ga", lit ".cf", lit ".pw", lit ".top",
   lit ".click", lit ".download"]

def popular_brands : List (List Char) :=
  [lit "google", lit "facebook", lit "amazon", lit "paypal",
   lit "microsoft", lit "apple"]

/-- `database_checker.check_phishing_databases`: live APIs first (always —
nothing gates this on `use_network`), then keyword, safe-list, TLD and
typosquatting checks on the domain. -/
def check_phishing_databases (env : PredictEnv) (domain : List Char) : DbResult :=
  let live := check_live_phishing_apis env domain
  let kw := phishing_keywords.any fun k => strIn k (lowerStr domain)
  let clean := replaceWWW (lowerStr domain)
  let safe := safe_domains.any fun s => clean == s || endsWith ('.' :: s) clean
  let tld := db_suspicious_tlds.any fun t => endsWith t domain
  let typoBrands := popular_brands.filter fun b =>
    strIn b clean && !endsWith (b ++ lit ".com") clean &&
      (strIn (b ++ lit "-") clean || strIn (b ++ lit ".") clean)
  { is_phishing := live.is_phishing || kw || tld || !typoBrands.isEmpty
    is_safe := safe
    sources :=
      (if live.is_phishing then live.sources.map DbSource.live else []) ++
      (if kw then [DbSource.keywords] else []) ++
      (if safe then [DbSource.safeDomain] else []) ++
      (if tld then [DbSource.suspiciousTld] else []) ++
      typoBrands.map DbSource.typosquat }

example : (check_phishing_databases ⟨true, true, false, 0, 0, false, false, true⟩
    (lit "example.com")).is_phishing = false := by decide
example : (check_phishing_databases ⟨true, true, false, 0, 0, false, false, true⟩
    (lit "paypal-secure.tk")).is_phishing = true := by decide
example : (check_phishing_databases ⟨true, true, false, 0, 0, false, false, true⟩
    (lit "github.com")).is_safe = true := by decide

/-- One entry of the `analysis_reasons` list of `predict`, by template.
The dynamic parts interpolated into the strings (domain names, lower-cased
keywords, percentages) never contain the upper-case scanner tokens
`WARNING`, `DANGER` or `AI`, so the template determines the scan result. -/
inductive Reason where
  | database (s : DbSource)    -- "[DATABASE] {source}"
  | dbDanger                   -- "[DANGER] Domain flagged by security databases"
  | dbSafe                     -- "[SAFE] Domain verified as legitimate"
  | trustedDomain              -- "[SAFE] Trusted domain: ..."
  | whitelistVerified          -- "[SAFE] Domain is in our whitelist ..."
  | warnLongDomain             -- "[WARNING] Very long domain name ..."
  | warnHyphens                -- "[WARNING] Too many hyphens ..."
  | warnSubdomains             -- "[WARNING] Too many subdomains ..."
  | warnLongRandom             -- "[WARNING] Long random character strings ..."
  | warnUncommon               -- "[WARNING] Uncommon letter combinations ..."
  | warnTld                    -- "[WARNING] Suspicious top-level domain ..."
  | warnSpaces                 -- "[WARNING] Suspicious URL path pattern"
  | warnInvalidLocal           -- "[WARNING] Invalid or local domain"
  | warnBrand                  -- "[WARNING] Possible brand impersonation attempt"
  | warnNoResolve              -- "[WARNING] Domain does not exist ..."
  | dangerMultiple             -- "[DANGER] Multiple suspicious indicators ..."
  | safeNormalStructure        -- "[SAFE] Domain structure appears normal"
  | safeNoPatterns             -- "[SAFE] No obvious suspicious patterns detected"
  | aiFlaggedNoPatterns        -- "[AI] Model flagged as phishing (...) ..."
  | overrideSafe               -- "[OVERRIDE] Classified as safe ..."
  | aiDetected                 -- "[AI] Model detected phishing patterns ..."
  | adviceAvoid                -- "[ADVICE] Recommendation: ..."
  | aiElevated                 -- "[AI] Model shows elevated risk ..."
  | aiLowRisk                  -- "[AI] Model shows low risk ..."
  | safeToVisit                -- "[SAFE] URL appears safe to visit"
deriving DecidableEq

/-- `"WARNING" in reason or "DANGER" in reason`, decided by template. -/
def hasRiskTag : Reason → Bool
  | .warnLongDomain | .warnHyphens | .warnSubdomains | .warnLongRandom
  | .warnUncommon | .warnTld | .warnSpaces | .warnInvalidLocal
  | .warnBrand | .warnNoResolve | .dangerMultiple | .dbDanger => true
  | _ => false

/-- `"AI" in reason`, decided by template. -/
def isAiTag : Reason → Bool
  | .aiFlaggedNoPatterns | .aiDetected | .aiElevated | .aiLowRisk => true
  | _ => false

/-- Netloc of the cleaned, normalised URL, as `predict` parses it. -/
def predict_netloc (url : List Char) : List Char :=
  netlocOf (normalizeUrl (replaceAmp url))

/-- The lower-cased domain of `predict`, with a leading `www.` stripped. -/
def predict_domain (url : List Char) : List Char :=
  let d := lowerStr (predict_netloc url)
  if startsWith (lit "www.") d then d.drop 4 else d

/-- `full_url = clean_url.lower()` (note: not scheme-normalised). -/
def predict_full_url (url : List Char) : List Char :=
  lowerStr (replaceAmp url)

/-- The legacy whitelist membership test of `predict`
(`domain == legit or domain.endswith('.' + legit)`); the list equals
`database_checker.safe_domains` textually. -/
def legitimate_check (domain : List Char) : Bool :=
  safe_domains.any fun l => domain == l || endsWith ('.' :: l) domain

/-- `domain_exists`: DNS is consulted only when `use_network` is true. -/
def domain_exists (env : PredictEnv) (use_network : Bool) : Bool :=
  if use_network then env.dnsResolves else true

/-- A run of at least `n` consecutive characters satisfying `p`
(`re.search` of `[c]{n,}`). -/
def hasRun (n : Nat) (p : Char → Bool) : List Char → Bool
  | [] => ((List.range n).length == n) && n == 0
  | c :: rest =>
    ((( (c :: rest).take n).length == n) && ((c :: rest).take n).all p) ||
    hasRun n p rest

def isQwxz (c : Char) : Bool := c == 'q' || c == 'w' || c == 'x' || c == 'z'

def flag_brands : List (List Char) :=
  [lit "paypal", lit "amazon", lit "google", lit "microsoft", lit "apple"]

/-- The `suspicious_flags` list built by `predict` for a domain that is in
no database and not whitelisted, in source order.  `netloc` is the
original-case netloc (the code checks `parsed.netloc`); `full_url` is the
lower-cased unparsed URL. -/
def suspicious_flags (netloc full_url : List Char) (domainExists : Bool) :
    List Reason :=
  (if netloc.length > 30 then [Reason.warnLongDomain] else []) ++
  (if netloc.count '-' > 3 then [Reason.warnHyphens] else []) ++
  (if netloc.count '.' > 4 then [Reason.warnSubdomains] else []) ++
  (if hasRun 15 Char.isLower netloc then [Reason.warnLongRandom] else []) ++
  (if hasRun 4 isQwxz netloc then [Reason.warnUncommon] else []) ++
  (if [lit ".tk", lit ".ml", lit ".ga", lit ".cf"].any
      (fun t => endsWith t netloc) then [Reason.warnTld] else []) ++
  (if strIn (lit "/spaces/") full_url && netloc.length > 20
   then [Reason.warnSpaces] else []) ++
  (if netloc.isEmpty || netloc == lit "localhost"
   then [Reason.warnInvalidLocal] else []) ++
  (if flag_brands.any (fun b =>
        !endsWith (b ++ lit ".com") netloc &&
        (strIn (b ++ lit "-") netloc || strIn (b ++ lit ".") netloc))
   then [Reason.warnBrand] else []) ++
  (if !domainExists then [Reason.warnNoResolve] else [])

example : suspicious_flags (lit "example.com") (lit "http://example.com") true
    = [] := by decide
example : suspicious_flags (lit "secure-paypal-update-login.tk")
    (lit "http://secure-paypal-update-login.tk") true
    = [.warnTld, .warnBrand] := by decide

/-- Return value of `predict`: a 3-tuple `(label, proba, reasons)` or a
2-tuple — `(label, proba)` without advice, `(None, None)` from the outer
exception handler. -/
inductive PredictRet where
  | tuple3 (label : Nat) (proba : Option ℚ) (reasons : List Reason)
  | tuple2 (label : Option Nat) (proba : Option ℚ)

def labelOf : PredictRet → Option Nat
  | .tuple3 l _ _ => some l
  | .tuple2 l _ => l

def probaOf : PredictRet → Option ℚ
  | .tuple3 _ p _ => p
  | .tuple2 _ p => p


/-- Return site of `predict` for a database phishing hit (lines 115–120):
`1, 0.95` with the `[DATABASE]` sources and the `[DANGER]` line. -/
def db_phishing_ret (adv : Bool) (srcs : List DbSource) : PredictRet :=
  let rs := srcs.map Reason.database ++ [Reason.dbDanger]
  if adv then .tuple3 1 (some (95/100)) rs else .tuple2 (some 1) (some (95/100))

/-- Return site for a database safe verdict (lines 122–127): `0, 0.05`. -/
def db_safe_ret (adv : Bool) (srcs : List DbSource) : PredictRet :=
  let rs := srcs.map Reason.database ++ [Reason.dbSafe]
  if adv then .tuple3 0 (some (5/100)) rs else .tuple2 (some 0) (some (5/100))

/-- Return site for a legacy-whitelist hit (lines 132–137):
`0, min(0.1, proba) if proba else 0.05`. -/
def legit_ret (adv : Bool) (proba : Option ℚ) : PredictRet :=
  let p : ℚ := if pyTruthy proba then pymin (1/10) (proba.getD 0) else 5/100
  let rs := [Reason.trustedDomain, Reason.whitelistVerified]
  if adv then .tuple3 0 (some p) rs else .tuple2 (some 0) (some p)

/-- Return site for non-empty suspicious flags (lines 168–173):
`1, max(0.85, proba) if proba else 0.90`. -/
def flags_ret (adv : Bool) (proba : Option ℚ) (flags : List Reason) : PredictRet :=
  let p : ℚ := if pyTruthy proba then pymax (85/100) (proba.getD 0) else 9/10
  let rs := flags ++ [Reason.dangerMultiple]
  if adv then .tuple3 1 (some p) rs else .tuple2 (some 1) (some p)

/-- The classifier path of `predict` (lines 174–210): the two `[SAFE]`
reasons, the low-confidence override
(`if pred == 1 and not has_suspicious_flags: if proba and proba < 0.9`),
and the final reason block.  When `pred == 1` and `proba` is `None`, the
f-string `{proba:.1%}` raises `TypeError`, which the outer handler turns
into `(None, None)`. -/
def model_ret (adv : Bool) (proba : Option ℚ) (pred0 : Nat) : PredictRet :=
  let rs0 := [Reason.safeNormalStructure, Reason.safeNoPatterns]
  let hasFlags := rs0.any hasRiskTag
  let over := pred0 == 1 && !hasFlags && pyTruthy proba &&
    decide (proba.getD 0 < 9/10)
  let pred := if over then 0 else pred0
  let rs1 := if over then
      rs0 ++ [Reason.aiFlaggedNoPatterns, Reason.overrideSafe]
    else rs0
  if pred == 1 then
    if !(rs1.any isAiTag) && proba.isNone then
      .tuple2 none none
    else
      let rs2 := (if !(rs1.any isAiTag) then rs1 ++ [Reason.aiDetected]
                  else rs1) ++ [Reason.adviceAvoid]
      if adv then .tuple3 pred proba rs2 else .tuple2 (some pred) proba
  else
    let rs2 := (if pyTruthy proba && decide ((1:ℚ)/2 < proba.getD 0) then
                  rs1 ++ [Reason.aiElevated]
                else if pyTruthy proba && decide (proba.getD 0 < (3:ℚ)/10) then
                  rs1 ++ [Reason.aiLowRisk]
                else rs1) ++ [Reason.safeToVisit]
    if adv then .tuple3 pred proba rs2 else .tuple2 (some pred) proba

/-- `predict_advanced.predict`.  The outer `try/except` returns
`(None, None)` on any exception: a failed artifact load, a raising
`url_to_features`, and the `TypeError` inside `model_ret`.  The database
check runs before the legacy whitelist and before the structural flags;
each return site is one of the `*_ret` functions above, in source order. -/
def predict (env : PredictEnv) (use_network include_advice : Bool)
    (url : List Char) : PredictRet :=
  if !(env.artifactsOk && env.featuresOk) then .tuple2 none none
  else
    let proba : Option ℚ := if env.hasProba then some env.modelProba else none
    let domain := predict_domain url
    let db := check_phishing_databases env domain
    if db.is_phishing then db_phishing_ret include_advice db.sources
    else if db.is_safe then db_safe_ret include_advice db.sources
    else if legitimate_check domain then legit_ret include_advice proba
    else
      let flags := suspicious_flags (predict_netloc url) (predict_full_url url)
        (domain_exists env use_network)
      if !flags.isEmpty then flags_ret include_advice proba flags
      else model_ret include_advice proba env.modelPred

lemma db_phishing_ret_shape (srcs : List DbSource) :
    ∃ l p rs, db_phishing_ret true srcs = .tuple3 l p rs := ⟨_, _, _, rfl⟩

lemma db_safe_ret_shape (srcs : List DbSource) :
    ∃ l p rs, db_safe_ret true srcs = .tuple3 l p rs := ⟨_, _, _, rfl⟩

lemma legit_ret_shape (proba : Option ℚ) :
    ∃ l p rs, legit_ret true proba = .tuple3 l p rs := ⟨_, _, _, rfl⟩

lemma flags_ret_shape (proba : Option ℚ) (flags : List Reason) :
    ∃ l p rs, flags_ret true proba flags = .tuple3 l p rs := ⟨_, _, _, rfl⟩

lemma model_ret_shape (proba : Option ℚ) (pred0 : Nat) :
    model_ret true proba pred0 = .tuple2 none none ∨
    ∃ l p rs, model_ret true proba pred0 = .tuple3 l p rs := by
  simp only [model_ret]
  split_ifs <;>
    first
      | exact Or.inl rfl
      | exact Or.inr ⟨_, _, _, rfl⟩

/-- Every `include_advice = True` call either returns the failure pair
`(None, None)` or some 3-tuple. -/
lemma predict_advice_shape (env : PredictEnv) (un : Bool) (url : List Char) :
    predict env un true url = .tuple2 none none ∨
    ∃ l p rs, predict env un true url = .tuple3 l p rs := by
  simp only [predict]
  split_ifs <;>
    first
      | exact Or.inl rfl
      | exact Or.inr (db_phishing_ret_shape _)
      | exact Or.inr (db_safe_ret_shape _)
      | exact Or.inr (legit_ret_shape _)
      | exact Or.inr (flags_ret_shape _ _)
      | exact model_ret_shape _ _

end PredictAdvanced

namespace PredictAdvanced

/-- On the classifier path with label 1 and an available, truthy
probability below 0.9, the override produces label 0. -/
lemma model_ret_override (adv : Bool) (q : ℚ) (hq0 : q ≠ 0) (hq9 : q < 9/10) :
    labelOf (model_ret adv (some q) 1) = some 0 := by
  have h1 : decide (q ≠ 0) = true := by simpa using hq0
  have h2 : decide (q < 9/10) = true := by simpa using hq9
  have h3 : ([Reason.safeNormalStructure, Reason.safeNoPatterns].any hasRiskTag)
      = false := rfl
  have h4 : ((0 : Nat) == 1) = false := rfl
  have h5 : ((1 : Nat) == 1) = true := rfl
  simp only [model_ret, pyTruthy, Option.getD_some, h1, h2, h3, h4, h5,
    Bool.not_false, Bool.true_and, Bool.and_true, if_true, Bool.false_eq_true,
    if_false]
  cases adv <;> simp [labelOf]

end PredictAdvanced

open PredictAdvanced in
/-- C2 (amended): in single-URL prediction, if the classifier label is
phishing, the request reaches the classifier path with no WARNING/DANGER
reasons raised, and the phishing probability is available, nonzero (Python
`if proba` truthiness) and strictly below 0.9, the verdict is overridden
to legitimate (label 0). -/
theorem override_to_legitimate (env : PredictEnv) (un adv : Bool)
    (url : List Char)
    (h1 : env.artifactsOk = true) (h2 : env.featuresOk = true)
    (hdbp : (check_phishing_databases env (predict_domain url)).is_phishing = false)
    (hdbs : (check_phishing_databases env (predict_domain url)).is_safe = false)
    (hleg : legitimate_check (predict_domain url) = false)
    (hfl : suspicious_flags (predict_netloc url) (predict_full_url url)
      (domain_exists env un) = [])
    (hpred : env.modelPred = 1)
    (hpro : env.hasProba = true)
    (hq0 : env.modelProba ≠ 0)
    (hq9 : env.modelProba < 9/10) :
    labelOf (predict env un adv url) = some 0 := by
  simp only [predict, h1, h2, hdbp, hdbs, hleg, hfl, hpro, Bool.and_self,
    Bool.not_true, Bool.false_eq_true, if_false, if_true, List.isEmpty_nil]
  rw [hpred]
  exact model_ret_override adv _ hq0 hq9

open PredictAdvanced in
/-- C2 counterexample: with the classifier reporting label 1 and an
available probability of exactly 0.0 (< 0.9) on a URL raising no flags,
the code does not override: `if proba and proba < 0.9` is false because
`0.0` is falsy in Python, so the verdict stays phishing (label 1). -/
theorem override_to_legitimate_cex :
    (PredictEnv.mk true true true 0 1 false false true).hasProba = true ∧
    (PredictEnv.mk true true true 0 1 false false true).modelProba < 9/10 ∧
    (PredictEnv.mk true true true 0 1 false false true).modelPred = 1 ∧
    (check_phishing_databases (PredictEnv.mk true true true 0 1 false false true)
      (predict_domain (lit "http://example.com"))).is_phishing = false ∧
    (check_phishing_databases (PredictEnv.mk true true true 0 1 false false true)
      (predict_domain (lit "http://example.com"))).is_safe = false ∧
    legitimate_check (predict_domain (lit "http://example.com")) = false ∧
    suspicious_flags (predict_netloc (lit "http://example.com"))
      (predict_full_url (lit "http://example.com"))
      (domain_exists (PredictEnv.mk true true true 0 1 false false true) false) = [] ∧
    labelOf (predict (PredictEnv.mk true true true 0 1 false false true)
      false true (lit "http://example.com")) = some 1 := by
  refine ⟨rfl, by norm_num, rfl, by decide, by decide, by decide, by decide, ?_⟩
  have hdbp : (check_phishing_databases (PredictEnv.mk true true true 0 1 false false true)
      (predict_domain (lit "http://example.com"))).is_phishing = false := by decide
  have hdbs : (check_phishing_databases (PredictEnv.mk true true true 0 1 false false true)
      (predict_domain (lit "http://example.com"))).is_safe = false := by decide
  have hleg : legitimate_check (predict_domain (lit "http://example.com")) = false := by
    decide
  have hfl : suspicious_flags (predict_netloc (lit "http://example.com"))
      (predict_full_url (lit "http://example.com"))
      (domain_exists (PredictEnv.mk true true true 0 1 false false true) false) = [] := by
    decide
  have hne : ((0:ℚ) ≠ 0) = False := by norm_num
  simp only [predict, hdbp, hdbs, hleg, hfl, Bool.and_self, Bool.not_true,
    Bool.false_eq_true, if_false, if_true, List.isEmpty_nil]
  simp [model_ret, pyTruthy, hne, hasRiskTag, isAiTag, labelOf]

open PredictAdvanced in
/-- C2 witness: the override theorem applied with probability 0.5. -/
theorem override_to_legitimate_witness :
    labelOf (predict (PredictEnv.mk true true true (1/2) 1 false false true)
      false true (lit "http://example.com")) = some 0 :=
  override_to_legitimate (PredictEnv.mk true true true (1/2) 1 false false true)
    false true (lit "http://example.com") rfl rfl (by decide) (by decide)
    (by decide) (by decide) rfl rfl
    (show (1/2 : ℚ) ≠ 0 by norm_num) (show (1/2 : ℚ) < 9/10 by norm_num)

open PredictAdvanced in
/-- C10: with `include_advice = True`, `predict` returns a 3-tuple
`(label, probability, reasons)` on every non-exception path, and the only
2-tuple it can return is the `(None, None)` produced by the outer `except`
handler — so the result arity depends on success versus failure. -/
theorem predict_advice_arity (env : PredictEnv) (un : Bool) (url : List Char) :
    (∀ l p, predict env un true url = .tuple2 l p → l = none ∧ p = none) ∧
    ((env.artifactsOk && env.featuresOk) = false →
      predict env un true url = .tuple2 none none) ∧
    (predict env un true url ≠ .tuple2 none none →
      ∃ l p rs, predict env un true url = .tuple3 l p rs) := by
  refine ⟨?_, ?_, ?_⟩
  · intro l p h
    rcases predict_advice_shape env un url with h0 | ⟨l', p', rs', h3⟩
    · have h2 := h0.symm.trans h
      injection h2 with ha hb
      exact ⟨ha.symm, hb.symm⟩
    · rw [h3] at h
      cases h
  · intro h
    simp only [predict, h, Bool.not_false, if_true]
  · intro hne
    rcases predict_advice_shape env un url with h0 | h3
    · exact absurd h0 hne
    · exact h3

open PredictAdvanced in
/-- C10 witness: the arity theorem applied to a failing artifact load
(2-tuple `(None, None)`) and to a URLVoid-flagged success (a 3-tuple). -/
theorem predict_advice_arity_witness :
    predict (PredictEnv.mk false true false 0 0 false false true) false true
      (lit "http://example.com") = .tuple2 none none ∧
    ∃ l p rs,
      predict (PredictEnv.mk true true false 0 0 true false true) false true
        (lit "http://example.com") = .tuple3 l p rs := by
  constructor
  · exact (predict_advice_arity (PredictEnv.mk false true false 0 0 false false true)
      false (lit "http://example.com")).2.1 rfl
  · apply (predict_advice_arity (PredictEnv.mk true true false 0 0 true false true)
      false (lit "http://example.com")).2.2
    have hdb : (check_phishing_databases
        (PredictEnv.mk true true false 0 0 true false true)
        (predict_domain (lit "http://example.com"))).is_phishing = true := by decide
    obtain ⟨l, p, rs, h3⟩ := db_phishing_ret_shape
      ((check_phishing_databases (PredictEnv.mk true true false 0 0 true false true)
        (predict_domain (lit "http://example.com"))).sources)
    simp only [predict, hdb, if_true, Bool.and_self, Bool.not_true,
      Bool.false_eq_true, if_false, h3]
    simp

open PredictAdvanced in
/-- C7: with `use_network = False`, `predict` still consults the live
URLVoid HTTP lookup (`check_phishing_databases` calls
`check_live_phishing_apis` unconditionally), so two runs that differ in
nothing but that live response — same URL, same artifacts, same classifier
outputs, `use_network = False` both times — return different labels:
1 when the response body says `malicious`, 0 otherwise.  The non-network
path is therefore not a deterministic function of the URL and the loaded
artifacts, contradicting both the idempotence property and the
`use_network` configuration contract of the specification. -/
theorem use_network_false_depends_on_live_api :
    labelOf (predict (PredictEnv.mk true true false 0 0 true false true)
      false true (lit "http://example.com")) = some 1 ∧
    labelOf (predict (PredictEnv.mk true true false 0 0 false false true)
      false true (lit "http://example.com")) = some 0 := by
  constructor
  · have hdb : (check_phishing_databases
        (PredictEnv.mk true true false 0 0 true false true)
        (predict_domain (lit "http://example.com"))).is_phishing = true := by decide
    simp only [predict, hdb, if_true, Bool.and_self, Bool.not_true,
      Bool.false_eq_true, if_false]
    simp [db_phishing_ret, labelOf]
  · have hdbp : (check_phishing_databases
        (PredictEnv.mk true true false 0 0 false false true)
        (predict_domain (lit "http://example.com"))).is_phishing = false := by decide
    have hdbs : (check_phishing_databases
        (PredictEnv.mk true true false 0 0 false false true)
        (predict_domain (lit "http://example.com"))).is_safe = false := by decide
    have hleg : legitimate_check (predict_domain (lit "http://example.com")) = false := by
      decide
    have hfl : suspicious_flags (predict_netloc (lit "http://example.com"))
        (predict_full_url (lit "http://example.com"))
        (domain_exists (PredictEnv.mk true true false 0 0 false false true) false)
        = [] := by decide
    simp only [predict, hdbp, hdbs, hleg, hfl, Bool.and_self, Bool.not_true,
      Bool.false_eq_true, if_false, if_true, List.isEmpty_nil]
    simp [model_ret, pyTruthy, labelOf]

namespace PredictAdvanced

/-- Oracle environment for `predict_batch` after the artifacts loaded
(the outer handler that returns `[]` on a failed load is outside this
model; the claims assume loaded artifacts).  `featErr u` is the message of
the exception `url_to_features` (or `model.predict`) raises on `u`, if
any; the classifier outputs are per-URL oracles. -/
structure BatchEnv where
  featErr : List Char → Option (List Char)
  modelPred : List Char → Nat
  hasProba : Bool
  modelProba : List Char → ℚ

/-- One result dictionary of `predict_batch`: `{'url', 'prediction',
'probability'}` on success, plus an `'error'` message when the per-URL
processing raised. -/
structure BatchEntry where
  url : List Char
  prediction : Option Nat
  probability : Option ℚ
  error : Option (List Char)
deriving DecidableEq

/-- The inline `suspicious_patterns` list of `predict_batch`
(lines 238–247), on the lower-cased domain and full URL. -/
def batch_suspicious (domain full_url : List Char) : Bool :=
  decide (domain.length > 25) ||
  decide (domain.count '-' > 2) ||
  decide (domain.count '.' > 3) ||
  hasRun 10 Char.isLower domain ||
  hasRun 3 isQwxz domain ||
  [lit ".tk", lit ".ml", lit ".ga", lit ".cf", lit ".co"].any
    (fun t => endsWith t domain) ||
  (strIn (lit "/spaces/") full_url && decide (domain.length > 15)) ||
  (domain.isEmpty || domain == lit "localhost")

/-- Per-URL body of the `for url in urls` loop of `predict_batch`: the
inner `try/except` catches the feature/prediction exception and appends
the error entry; otherwise the batch-only heuristic may force label 1. -/
def process_url (benv : BatchEnv) (url : List Char) : BatchEntry :=
  match benv.featErr url with
  | some e => ⟨url, none, none, some e⟩
  | none =>
    let pred0 := benv.modelPred url
    let proba0 : Option ℚ :=
      if benv.hasProba then some (benv.modelProba url) else none
    let domain := lowerStr (netlocOf (normalizeUrl url))
    let full_url := lowerStr url
    if batch_suspicious domain full_url then
      ⟨url, some 1,
        some (if pyTruthy proba0 then pymax (85/100) (proba0.getD 0) else 9/10),
        none⟩
    else if pyTruthy proba0 && decide ((3:ℚ)/10 < proba0.getD 0) then
      ⟨url, some 1, proba0, none⟩
    else
      ⟨url, some pred0, proba0, none⟩

/-- `predict_advanced.predict_batch` with artifacts loaded: one entry per
URL, in order. -/
def predict_batch (benv : BatchEnv) (urls : List (List Char)) :
    List BatchEntry :=
  urls.map (process_url benv)

end PredictAdvanced

namespace PredictAdvanced

/-- The environment of the batch witness: the vectorizer raises on the
second URL only. -/
def benv0 : BatchEnv :=
  ⟨fun u => if u = lit "http://b.com" then some (lit "vectorizer boom") else none,
   fun _ => 0, true, fun _ => 1/10⟩

end PredictAdvanced

open PredictAdvanced in
/-- C6: with artifacts loaded, `predict_batch` returns exactly one entry
per input URL in input order; the entry of URL `i` is a function of that
URL alone (so one URL's failure cannot affect another's result); and a
URL whose processing raises yields `prediction = None`,
`probability = None` and an `error` message. -/
theorem predict_batch_partial_failure (benv : BatchEnv)
    (urls : List (List Char)) :
    (predict_batch benv urls).length = urls.length ∧
    (∀ i, (predict_batch benv urls).get? i = (urls.get? i).map (process_url benv)) ∧
    (∀ u e, benv.featErr u = some e →
      process_url benv u = ⟨u, none, none, some e⟩) := by
  refine ⟨by simp [predict_batch], ?_, ?_⟩
  · intro i
    simp [predict_batch, List.getElem?_map]
  · intro u e he
    simp [process_url, he]

open PredictAdvanced in
/-- C6 witness: the batch theorem applied to three URLs whose second
forces a vectorizer exception — the result has length 3, item 2 is the
error entry, and items 1 and 3 are the ordinary per-URL results. -/
theorem predict_batch_partial_failure_witness :
    (predict_batch benv0
      [lit "http://a.com", lit "http://b.com", lit "http://c.com"]).length = 3 ∧
    (predict_batch benv0
      [lit "http://a.com", lit "http://b.com", lit "http://c.com"]).get? 1 =
      some ⟨lit "http://b.com", none, none, some (lit "vectorizer boom")⟩ ∧
    (predict_batch benv0
      [lit "http://a.com", lit "http://b.com", lit "http://c.com"]).get? 0 =
      some (process_url benv0 (lit "http://a.com")) ∧
    (predict_batch benv0
      [lit "http://a.com", lit "http://b.com", lit "http://c.com"]).get? 2 =
      some (process_url benv0 (lit "http://c.com")) := by
  have h := predict_batch_partial_failure benv0
    [lit "http://a.com", lit "http://b.com", lit "http://c.com"]
  refine ⟨h.1, ?_, by simpa using h.2.1 0, by simpa using h.2.1 2⟩
  have h1 := h.2.1 1
  have h2 := h.2.2 (lit "http://b.com") (lit "vectorizer boom") (by decide)
  simpa [h2] using h1

/-! ## `featureExtractor.py` — `validate_features` -/

namespace FeatureExtractor

/-- A Python float as `validate_features` distinguishes them: a finite
value, `±inf` (`value == float('inf')` / `float('-inf')`), or `NaN`
(`value != value`). -/
inductive PyFloat where
  | finite (q : ℚ)
  | posInf
  | negInf
  | nan
deriving DecidableEq

/-- A feature value reaching `validate_features`: a bool, an int, a float,
any other object (validated as `len(str(value))`), or a value whose
handling raises (the `except` arm). -/
inductive PyVal where
  | bool (b : Bool)
  | int (n : Int)
  | float (f : PyFloat)
  | other (strLen : Nat)
  | exotic
deriving DecidableEq

/-- The per-value body of `validate_features`: bools to `int(value)`,
`+inf` to `999999`, `-inf` to `-999999`, `NaN` to `-1`, other numbers to
`float(value)`, non-numerics to `len(str(value))`, and the exception arm
to `-1`. -/
def validateValue : PyVal → PyVal
  | .bool b => .int (if b then 1 else 0)
  | .int n => .float (.finite n)
  | .float (.finite q) => .float (.finite q)
  | .float .posInf => .int 999999
  | .float .negInf => .int (-999999)
  | .float .nan => .int (-1)
  | .other len => .int len
  | .exotic => .int (-1)

/-- `math.isfinite` on a validated value. -/
def isFinite : PyVal → Bool
  | .float .posInf => false
  | .float .negInf => false
  | .float .nan => false
  | _ => true

/-- `PhishingFeatureExtractor.validate_features`: validate every value of
the record, keeping its keys. -/
def validate_features (feats : List (List Char × PyVal)) :
    List (List Char × PyVal) :=
  feats.map fun p => (p.1, validateValue p.2)

end FeatureExtractor

open FeatureExtractor in
/-- C3: for every input feature mapping, the validated record contains no
non-finite value — booleans become 0/1, `+inf` becomes 999999, `-inf`
becomes -999999, `NaN` becomes -1, non-numeric values become a finite
number — and the key set is preserved. -/
theorem validate_features_finite (feats : List (List Char × PyVal)) :
    (∀ p ∈ validate_features feats, isFinite p.2 = true) ∧
    validateValue (.bool true) = .int 1 ∧
    validateValue (.bool false) = .int 0 ∧
    validateValue (.float .posInf) = .int 999999 ∧
    validateValue (.float .negInf) = .int (-999999) ∧
    validateValue (.float .nan) = .int (-1) ∧
    (∀ len : Nat, validateValue (.other len) = .int len) ∧
    (validate_features feats).map Prod.fst = feats.map Prod.fst := by
  refine ⟨?_, rfl, rfl, rfl, rfl, rfl, fun _ => rfl, ?_⟩
  · intro p hp
    simp only [validate_features, List.mem_map] at hp
    obtain ⟨⟨n, v⟩, _, rfl⟩ := hp
    rcases v with b | m | f | len | _
    · rfl
    · rfl
    · rcases f with q | _ | _ | _ <;> rfl
    · rfl
    · rfl
  · simp [validate_features]

open FeatureExtractor in
/-- C3 witness: the finiteness theorem applied to a concrete record
containing a NaN, a boolean, an infinity and a non-numeric value. -/
theorem validate_features_finite_witness :
    (lit "a", PyVal.int (-1)) ∈ validate_features
      [(lit "a", PyVal.float .nan), (lit "b", PyVal.bool true),
       (lit "c", PyVal.other 7), (lit "d", PyVal.float .posInf)] ∧
    isFinite (PyVal.int (-1)) = true :=
  ⟨by decide,
   (validate_features_finite
      [(lit "a", PyVal.float .nan), (lit "b", PyVal.bool true),
       (lit "c", PyVal.other 7), (lit "d", PyVal.float .posInf)]).1
     (lit "a", PyVal.int (-1)) (by decide)⟩

/-! ## `extractorFunctions.py` — `BlacklistChecker` -/

namespace ExtractorFunctions

/-- `BlacklistChecker.malicious_domains` (distinct from the
`QuickPreChecker` list: `fake-bank.ml`, `scam-paypal.ga`). -/
def malicious_domains : List (List Char) :=
  [lit "phishing-site.tk", lit "fake-bank.ml", lit "scam-paypal.ga",
   lit "malware-download.cf", lit "suspicious-login.xyz"]

/-- `re.match(r'.*MID.*LAST$', d)`: some split `d = p ++ MID ++ q ++ LAST`,
i.e. `d` ends with `LAST` and `MID` occurs in what precedes it. -/
def re_match_midsuffix (mid last d : List Char) : Bool :=
  endsWith last d && strIn mid (d.take (d.length - last.length))

/-- `BlacklistChecker.suspicious_patterns`, as (middle, suffix) pairs of
`.*-security-.*\.tk$`, `.*-verify-.*\.ml$`, `.*-suspended-.*\.ga$`,
`.*-locked-.*\.cf$`. -/
def suspicious_patterns : List (List Char × List Char) :=
  [(lit "-security-", lit ".tk"), (lit "-verify-", lit ".ml"),
   (lit "-suspended-", lit ".ga"), (lit "-locked-", lit ".cf")]

def is_blacklistedB (domain : List Char) : Bool :=
  malicious_domains.contains domain

def matches_patternB (domain : List Char) : Bool :=
  suspicious_patterns.any fun pr => re_match_midsuffix pr.1 pr.2 domain

def tld_substrB (domain : List Char) : Bool :=
  [lit ".tk", lit ".ml", lit ".ga", lit ".cf"].any fun t => strIn t domain

/-- The features record built by `BlacklistChecker.check`. -/
structure BlacklistFeatures where
  is_blacklisted : Nat
  matches_suspicious_pattern : Nat
  reputation_score : ℚ

/-- `BlacklistChecker.check`: the 0/1 features, then the reputation score
starting at 1.0 and overwritten by the `if`/`elif` chain (the conditions
test the int features by Python truthiness). -/
def check (netloc : List Char) : BlacklistFeatures :=
  let domain := lowerStr netloc
  let isBl : Nat := if is_blacklistedB domain then 1 else 0
  let pat : Nat := if matches_patternB domain then 1 else 0
  let rep : ℚ :=
    if isBl ≠ 0 then 0
    else if pat ≠ 0 then 3/10
    else if tld_substrB domain then 6/10
    else 1
  ⟨isBl, pat, rep⟩

example : (check (lit "fake-bank.ml")).reputation_score = 0 := by
  have h : is_blacklistedB (lowerStr (lit "fake-bank.ml")) = true := by decide
  simp [check, h]
example : re_match_midsuffix (lit "-security-") (lit ".tk")
    (lit "pp-security-alert.tk") = true := by decide
example : re_match_midsuffix (lit "-security-") (lit ".tk")
    (lit "pp-security.tk") = false := by decide

end ExtractorFunctions

open ExtractorFunctions in
/-- C8: for every URL the `reputation_score` of `BlacklistChecker.check`
is exactly one of {0.0, 0.3, 0.6, 1.0}, selected in priority order:
0.0 when the domain is blacklisted, else 0.3 on a suspicious-pattern
match, else 0.6 when the domain contains one of `.tk`, `.ml`, `.ga`,
`.cf`, else 1.0. -/
theorem reputation_score_lattice (netloc : List Char) :
    ((check netloc).reputation_score = 0 ∨
     (check netloc).reputation_score = 3/10 ∨
     (check netloc).reputation_score = 6/10 ∨
     (check netloc).reputation_score = 1) ∧
    (check netloc).reputation_score =
      (if is_blacklistedB (lowerStr netloc) then 0
       else if matches_patternB (lowerStr netloc) then 3/10
       else if tld_substrB (lowerStr netloc) then 6/10
       else 1) := by
  constructor
  · simp only [check]
    split_ifs <;> norm_num
  · simp only [check]
    split_ifs <;> simp_all
